import Mathlib

/-!
# Verification of the KrakenWebhook service

A shallow embedding, in Lean 4, of the parts of the KrakenWebhook repository
(a TradingView-to-Kraken webhook service written in Python) that its
specification makes claims about, together with proofs settling each claim.

Embedded modules:
* `src/utils/models.py` — the `TradingViewAlert` pydantic model with its
  field validators, and `TradeRequest.from_tradingview_alert`;
* `src/processor/payload_processor.py` — HMAC signature validation and the
  request-processing pipeline;
* `src/webhook/receiver.py` — the webhook endpoint's control flow and its
  generic exception handler;
* `src/main.py` — the application-level `global_exception_handler`.

Modelling conventions:
* Python floats carried by alert payloads are modelled as `ℚ`; Python's
  `str(x)` on such a number is modelled as `pyFloatStr` / `pyIntStr`
  (decimal rendering of the value). The claims under study only move these
  values around, so the exact decimal rendering is irrelevant.
* Raw request bodies are lists of bytes (`List Nat`, each `< 256`).
* Python's `str.upper` is modelled character-wise with `Char.toUpper`,
  which agrees with Python on ASCII (every symbol the alias table or the
  claims mention is ASCII).
* pydantic v1 semantics are embedded faithfully where they matter: a field
  validator without `always=True` is *skipped* when the field is not
  supplied, and a validator declared with `**kwargs` receives the
  `ModelField` object (not the field's name) under the key `field`.
-/

namespace KrakenWebhook

/-! ## Order enums (`src/utils/models.py`, `OrderType` / `OrderSide`) -/

/-- The `OrderType(str, Enum)` enum from `models.py`. -/
inductive OrderType where
  | MARKET
  | LIMIT
  | STOP_LOSS
  | TAKE_PROFIT
  | STOP_LOSS_LIMIT
  | TAKE_PROFIT_LIMIT
deriving DecidableEq, BEq

/-- The `OrderSide(str, Enum)` enum from `models.py`. -/
inductive OrderSide where
  | BUY
  | SELL
deriving DecidableEq, BEq

/-- The `.value` string of an `OrderType` member. -/
def OrderType.val : OrderType → String
  | .MARKET => "market"
  | .LIMIT => "limit"
  | .STOP_LOSS => "stop-loss"
  | .TAKE_PROFIT => "take-profit"
  | .STOP_LOSS_LIMIT => "stop-loss-limit"
  | .TAKE_PROFIT_LIMIT => "take-profit-limit"

/-- The `.value` string of an `OrderSide` member. -/
def OrderSide.val : OrderSide → String
  | .BUY => "buy"
  | .SELL => "sell"

/-! ## Python-string helpers -/

/-- Python `str.upper`, modelled character-wise (agrees with Python on the
ASCII strings this service manipulates). -/
def pyUpper (s : String) : String :=
  ⟨s.data.map Char.toUpper⟩

/-- Python `str(x)` applied to an alert's numeric (float) field, the field
being modelled as `ℚ`. -/
def pyFloatStr (q : ℚ) : String :=
  toString q

/-- Python `str(x)` applied to an integer field. -/
def pyIntStr (n : ℤ) : String :=
  toString n

/-! ## pydantic v1 runtime values

`validate_prices` is declared as `def validate_prices(cls, v, values,
**kwargs)` and reads `kwargs.get('field', '')`.  Under pydantic v1 the
`field` keyword argument is the `ModelField` *object*, not the field's name
string; `ModelField` inherits no `__eq__` against `str`, so Python's `==`
between the two is always `False`.  `PyVal` embeds just enough of Python's
dynamic values to express this honestly. -/

/-- A Python runtime value as seen by the `validate_prices` validator:
either a `str` or a pydantic `ModelField` object (identified here by the
name of the field it describes). -/
inductive PyVal where
  | str (s : String)
  | modelField (fieldName : String)
deriving DecidableEq

/-- Python `==` on the values above.  Two `str`s compare by content;
`ModelField` defines no `__eq__` against `str`, so every mixed or
field-object comparison falls back to identity and yields `False` (the two
operands here are never the same object). -/
def pyEq : PyVal → PyVal → Bool
  | .str a, .str b => a == b
  | _, _ => false

/-! ## The `TradingViewAlert` model and its validators -/

/-- The raw (already JSON-parsed) payload of a webhook request, as pydantic
receives it in `TradingViewAlert(**body)`.  `none` on an outer `Option`
means the key is absent from the payload; for the numeric fields the inner
`Option` distinguishes an explicit JSON `null` (`some none`) from a number
(`some (some q)`). -/
structure AlertInput where
  symbol : Option String := none
  side : Option OrderSide := none
  order_type : Option OrderType := none
  volume : Option (Option ℚ) := none
  price : Option (Option ℚ) := none
  stop_price : Option (Option ℚ) := none
  leverage : Option ℤ := none
deriving DecidableEq

/-- A validated `TradingViewAlert` (the pydantic model instance after all
field validators have run). -/
structure TradingViewAlert where
  symbol : String
  side : OrderSide
  order_type : OrderType := .MARKET
  volume : Option ℚ := none
  price : Option ℚ := none
  stop_price : Option ℚ := none
  leverage : Option ℤ := none
deriving DecidableEq

/-- The static alias table inside `TradingViewAlert.validate_symbol`
(`symbol_mappings`, `models.py` lines 54-59). -/
def symbol_mappings : List (String × String) :=
  [("BTCUSD", "XBTUSD"), ("BTC/USD", "XBTUSD"),
   ("ETHUSD", "ETHUSD"), ("ETH/USD", "ETHUSD")]

/-- Embeds `TradingViewAlert.validate_symbol` (`models.py` lines 47-61): uppercase
the symbol, then `symbol_mappings.get(v, v)`.  Note the source performs no
emptiness check. -/
def validate_symbol (v : String) : String :=
  let v := pyUpper v
  (symbol_mappings.lookup v).getD v

/-- The `price_required_for` list in `validate_prices`. -/
def price_required_for : List OrderType :=
  [.LIMIT, .STOP_LOSS_LIMIT, .TAKE_PROFIT_LIMIT]

/-- The `stop_price_required_for` list in `validate_prices`. -/
def stop_price_required_for : List OrderType :=
  [.STOP_LOSS, .STOP_LOSS_LIMIT, .TAKE_PROFIT, .TAKE_PROFIT_LIMIT]

/-- Embeds `TradingViewAlert.validate_prices` (`models.py` lines 63-88), the shared
validator for `price` and `stop_price`.  `v` is the supplied value (`none`
embeds an explicit JSON `null`), `kwargsField` is `kwargs.get('field', '')`
— under pydantic v1 a `ModelField` object — and `order_type` is
`values.get('order_type')` (the already-validated order type, the declared
default `market` standing in when the key was absent). -/
def validate_prices (v : Option ℚ) (kwargsField : PyVal) (order_type : OrderType) :
    Except String (Option ℚ) :=
  match v with
  | none =>
    let field_name := kwargsField
    if (pyEq field_name (.str "price") && price_required_for.contains order_type) ||
       (pyEq field_name (.str "stop_price") && stop_price_required_for.contains order_type) then
      .error ((OrderType.val order_type) ++ " order requires the field")
    else
      .ok none
  | some x => .ok (some x)

/-- Embeds `TradingViewAlert.validate_volume` (`models.py` lines 90-95):
`if v is not None and v <= 0: raise ValueError("Volume must be positive")`. -/
def validate_volume (v : Option ℚ) : Except String (Option ℚ) :=
  match v with
  | none => .ok none
  | some x => if x ≤ 0 then .error "Volume must be positive" else .ok (some x)

/-- The list of error strings an `Except`-valued field validation
contributes to the pydantic `ValidationError`. -/
def errsOf {α : Type} : Except String α → List String
  | .error e => [e]
  | .ok _ => []

/-- Schema validation of a payload: `TradingViewAlert(**body)` under
pydantic v1.  Each field is processed in declaration order; a validator
without `always=True` is skipped when its field is absent (the declared
default is then used directly); errors from all fields are collected into
one `ValidationError`. -/
def validateAlert (i : AlertInput) : Except (List String) TradingViewAlert :=
  let order_type := i.order_type.getD .MARKET
  let symRes : Except String String :=
    match i.symbol with
    | none => .error "symbol: field required"
    | some s => .ok (validate_symbol s)
  let sideRes : Except String OrderSide :=
    match i.side with
    | none => .error "side: field required"
    | some sd => .ok sd
  let volRes : Except String (Option ℚ) :=
    match i.volume with
    | none => .ok none
    | some jv => validate_volume jv
  let priceRes : Except String (Option ℚ) :=
    match i.price with
    | none => .ok none
    | some jv => validate_prices jv (.modelField "price") order_type
  let stopRes : Except String (Option ℚ) :=
    match i.stop_price with
    | none => .ok none
    | some jv => validate_prices jv (.modelField "stop_price") order_type
  match symRes, sideRes, volRes, priceRes, stopRes with
  | .ok sym, .ok sd, .ok vol, .ok pr, .ok sp =>
    .ok { symbol := sym, side := sd, order_type := order_type,
          volume := vol, price := pr, stop_price := sp, leverage := i.leverage }
  | _, _, _, _, _ =>
    .error (errsOf symRes ++ errsOf sideRes ++ errsOf volRes ++
            errsOf priceRes ++ errsOf stopRes)

/-! ## The `TradeRequest` model and the alert-to-order translation -/

/-- A `TradeRequest` (the order command sent to Kraken), `models.py`
lines 98-119.  Fields not populated by the translation are left at their
default `none`. -/
structure TradeRequest where
  pair : String
  type : OrderSide
  ordertype : String
  volume : Option String := none
  price : Option String := none
  price2 : Option String := none
  leverage : Option String := none
deriving DecidableEq

/-- The `ordertype_mapping` dict in `from_tradingview_alert`
(`models.py` lines 133-140). -/
def ordertype_mapping : List (OrderType × String) :=
  [(.MARKET, "market"), (.LIMIT, "limit"), (.STOP_LOSS, "stop-loss"),
   (.TAKE_PROFIT, "take-profit"), (.STOP_LOSS_LIMIT, "stop-loss-limit"),
   (.TAKE_PROFIT_LIMIT, "take-profit-limit")]

/-- Embeds `TradeRequest.from_tradingview_alert` (`models.py` lines 121-168).
The Python dict subscript `ordertype_mapping[alert.order_type]` is fallible
(`KeyError`), hence the `Option` result; the successive `request[...] = ...`
assignments are mirrored by successive record updates — in particular the
`stop_price` branch may overwrite the `price` entry set just before it. -/
def from_tradingview_alert (alert : TradingViewAlert) : Option TradeRequest :=
  match ordertype_mapping.lookup alert.order_type with
  | none => none
  | some ot =>
    let request : TradeRequest :=
      { pair := alert.symbol, type := alert.side, ordertype := ot }
    let request :=
      match alert.volume with
      | some v => { request with volume := some (pyFloatStr v) }
      | none => request
    let request :=
      match alert.price with
      | some p => { request with price := some (pyFloatStr p) }
      | none => request
    let request :=
      match alert.stop_price with
      | some sp =>
        if alert.order_type = .STOP_LOSS_LIMIT ∨ alert.order_type = .TAKE_PROFIT_LIMIT then
          { request with price2 := some (pyFloatStr sp) }
        else
          { request with price := some (pyFloatStr sp) }
      | none => request
    let request :=
      match alert.leverage with
      | some l => { request with leverage := some (pyIntStr l) }
      | none => request
    some request

/-! ## SHA-256 and HMAC (Python `hashlib.sha256` / `hmac`)

`_validate_signature` computes `hmac.new(secret.encode(), body,
hashlib.sha256).hexdigest()`.  The hash is embedded bit-for-bit
(FIPS 180-4), 32-bit words carried as `Nat` with explicit reduction
modulo `2^32`. -/

/-- Addition modulo `2^32`. -/
def add32 (a b : Nat) : Nat := (a + b) % 4294967296

/-- Rotate a 32-bit word right by `n` positions. -/
def rotr32 (n x : Nat) : Nat :=
  ((x >>> n) ||| (x <<< (32 - n))) % 4294967296

/-- Bitwise complement of a 32-bit word. -/
def not32 (x : Nat) : Nat := x ^^^ 4294967295

/-- The SHA-256 message-schedule function `σ₀`. -/
def ssig0 (x : Nat) : Nat := rotr32 7 x ^^^ rotr32 18 x ^^^ (x >>> 3)

/-- The SHA-256 message-schedule function `σ₁`. -/
def ssig1 (x : Nat) : Nat := rotr32 17 x ^^^ rotr32 19 x ^^^ (x >>> 10)

/-- The 64 SHA-256 round constants, written in decimal. -/
def sha256K : List Nat :=
  [1116352408, 1899447441, 3049323471, 3921009573, 961987163,
   1508970993, 2453635748, 2870763221, 3624381080, 310598401,
   607225278, 1426881987, 1925078388, 2162078206, 2614888103,
   3248222580, 3835390401, 4022224774, 264347078, 604807628,
   770255983, 1249150122, 1555081692, 1996064986, 2554220882,
   2821834349, 2952996808, 3210313671, 3336571891, 3584528711,
   113926993, 338241895, 666307205, 773529912, 1294757372,
   1396182291, 1695183700, 1986661051, 2177026350, 2456956037,
   2730485921, 2820302411, 3259730800, 3345764771, 3516065817,
   3600352804, 4094571909, 275423344, 430227734, 506948616,
   659060556, 883997877, 958139571, 1322822218, 1537002063,
   1747873779, 1955562222, 2024104815, 2227730452, 2361852424,
   2428436474, 2756734187, 3204031479, 3329325298]

/-- SHA-256 working state: the eight 32-bit registers. -/
structure Sha256State where
  a : Nat
  b : Nat
  c : Nat
  d : Nat
  e : Nat
  f : Nat
  g : Nat
  h : Nat
deriving DecidableEq

/-- The SHA-256 initial hash value (the eight words of `H⁽⁰⁾`, in
decimal). -/
def sha256Init : Sha256State :=
  ⟨1779033703, 3144134277, 1013904242, 2773480762,
   1359893119, 2600822924, 528734635, 1541459225⟩

/-- One step of the message-schedule extension.  The accumulator holds the
schedule produced so far, most recent word first, so `w[t-2]`, `w[t-7]`,
`w[t-15]`, `w[t-16]` are at positions 1, 6, 14, 15. -/
def scheduleStep (acc : List Nat) : List Nat :=
  add32 (add32 (ssig1 ((acc.get? 1).getD 0)) ((acc.get? 6).getD 0))
        (add32 (ssig0 ((acc.get? 14).getD 0)) ((acc.get? 15).getD 0)) :: acc

/-- Extend a 16-word block to the full 64-word message schedule. -/
def sha256Schedule (block : List Nat) : List Nat :=
  (scheduleStep^[48] block.reverse).reverse

/-- One SHA-256 compression round. -/
def sha256Round (s : Sha256State) (kw : Nat × Nat) : Sha256State :=
  let S1 := rotr32 6 s.e ^^^ rotr32 11 s.e ^^^ rotr32 25 s.e
  let ch := (s.e &&& s.f) ^^^ (not32 s.e &&& s.g)
  let temp1 := add32 s.h (add32 S1 (add32 ch (add32 kw.1 kw.2)))
  let S0 := rotr32 2 s.a ^^^ rotr32 13 s.a ^^^ rotr32 22 s.a
  let maj := (s.a &&& s.b) ^^^ (s.a &&& s.c) ^^^ (s.b &&& s.c)
  let temp2 := add32 S0 maj
  ⟨add32 temp1 temp2, s.a, s.b, s.c, add32 s.d temp1, s.e, s.f, s.g⟩

/-- Compress one 16-word block into the running hash state. -/
def sha256Compress (st : Sha256State) (block : List Nat) : Sha256State :=
  let w := sha256Schedule block
  let r := (sha256K.zip w).foldl sha256Round st
  ⟨add32 st.a r.a, add32 st.b r.b, add32 st.c r.c, add32 st.d r.d,
   add32 st.e r.e, add32 st.f r.f, add32 st.g r.g, add32 st.h r.h⟩

/-- Group a byte list into big-endian 32-bit words (the byte count is a
multiple of 4 after padding). -/
def bytesToWords : List Nat → List Nat
  | b0 :: b1 :: b2 :: b3 :: rest =>
    (b0 * 16777216 + b1 * 65536 + b2 * 256 + b3) :: bytesToWords rest
  | _ => []

/-- Split a (padded) byte string into 64-byte blocks. -/
def toBlocks (l : List Nat) : List (List Nat) :=
  if h : l = [] then []
  else
    have : (l.drop 64).length < l.length := by
      cases l with
      | nil => exact absurd rfl h
      | cons x xs => simp [List.length_drop]; omega
    l.take 64 :: toBlocks (l.drop 64)
termination_by l.length

/-- The big-endian 8-byte encoding of the message bit length. -/
def lengthBytes (bitLen : Nat) : List Nat :=
  [bitLen >>> 56 % 256, bitLen >>> 48 % 256, bitLen >>> 40 % 256,
   bitLen >>> 32 % 256, bitLen >>> 24 % 256, bitLen >>> 16 % 256,
   bitLen >>> 8 % 256, bitLen % 256]

/-- SHA-256 padding: append `0x80`, zeros to 56 mod 64, then the bit length. -/
def sha256Pad (msg : List Nat) : List Nat :=
  let padZeros := (119 - msg.length % 64) % 64
  msg ++ 0x80 :: List.replicate padZeros 0 ++ lengthBytes (8 * msg.length)

/-- The big-endian bytes of one 32-bit word. -/
def wordBytes (w : Nat) : List Nat :=
  [w >>> 24 % 256, w >>> 16 % 256, w >>> 8 % 256, w % 256]

/-- SHA-256 of a byte string, as its 32-byte digest. -/
def sha256 (msg : List Nat) : List Nat :=
  let final := (toBlocks (sha256Pad msg)).foldl
    (fun st block => sha256Compress st (bytesToWords block)) sha256Init
  wordBytes final.a ++ wordBytes final.b ++ wordBytes final.c ++
  wordBytes final.d ++ wordBytes final.e ++ wordBytes final.f ++
  wordBytes final.g ++ wordBytes final.h

/-- Embeds `hmac.new(key, msg, hashlib.sha256).digest()` (RFC 2104, block size 64):
a key longer than the block is hashed first, then zero-padded; the digest is
`H((k ⊕ opad) ‖ H((k ⊕ ipad) ‖ msg))`. -/
def hmacSha256 (key msg : List Nat) : List Nat :=
  let k0 := if key.length > 64 then sha256 key else key
  let k := k0 ++ List.replicate (64 - k0.length) 0
  let ipadded := k.map (fun b => b ^^^ 0x36)
  let opadded := k.map (fun b => b ^^^ 0x5c)
  sha256 (opadded ++ sha256 (ipadded ++ msg))

/-- The lowercase hex digit for a value below 16. -/
def hexChar (n : Nat) : Char :=
  if n < 10 then Char.ofNat (48 + n) else Char.ofNat (87 + n)

/-- The two lowercase hex digits of one byte. -/
def byteHexChars (b : Nat) : List Char :=
  [hexChar (b / 16 % 16), hexChar (b % 16)]

/-- Embeds `.hexdigest()`: the lowercase hex string of a byte digest. -/
def bytesToHex (l : List Nat) : String :=
  ⟨(l.map byteHexChars).flatten⟩

/-- UTF-8 encoding of one Unicode code point (Python `str.encode()`). -/
def utf8EncodeChar (n : Nat) : List Nat :=
  if n < 0x80 then [n]
  else if n < 0x800 then
    [0xC0 ||| (n >>> 6), 0x80 ||| (n &&& 0x3F)]
  else if n < 0x10000 then
    [0xE0 ||| (n >>> 12), 0x80 ||| ((n >>> 6) &&& 0x3F), 0x80 ||| (n &&& 0x3F)]
  else
    [0xF0 ||| (n >>> 18), 0x80 ||| ((n >>> 12) &&& 0x3F),
     0x80 ||| ((n >>> 6) &&& 0x3F), 0x80 ||| (n &&& 0x3F)]

/-- Python `str.encode()`: the UTF-8 bytes of a string. -/
def strBytes (s : String) : List Nat :=
  (s.data.map (fun c => utf8EncodeChar c.toNat)).flatten

/-- Embeds `hmac.new(webhook_secret.encode(), body, hashlib.sha256).hexdigest()`
(`payload_processor.py` lines 109-113). -/
def hmacSha256Hex (secret : String) (body : List Nat) : String :=
  bytesToHex (hmacSha256 (strBytes secret) body)

/-! ## Signature validation (`payload_processor.py`, `_validate_signature`) -/

/-- Embeds `hmac.compare_digest` on two (ASCII) strings.  The comparison is
constant-time at the Python level, but functionally it is string equality,
which is all a functional embedding can and need express. -/
def compare_digest (a b : String) : Bool :=
  a == b

/-- The outcome of `PayloadProcessor._validate_signature`: normal return,
or one of its two `HTTPException(401, ...)` raises (details
`"Missing signature header"` and `"Invalid signature"`). -/
inductive SigResult where
  | ok
  | missingSignature
  | invalidSignature
deriving DecidableEq

/-- Embeds `PayloadProcessor._validate_signature` (`payload_processor.py`
lines 78-123).  `webhook_secret` is the configured secret (`none` when not
configured), `xSignature` is `request.headers.get("X-Signature")` (`none`
when the header is absent), `body` is the raw request body.  Both guards
are Python truthiness tests (`if not webhook_secret`, `if not signature`),
so an empty string behaves like an absent value in each. -/
def validate_signature (webhook_secret : Option String) (xSignature : Option String)
    (body : List Nat) : SigResult :=
  match webhook_secret with
  | none => .ok
  | some secret =>
    if secret = "" then .ok
    else
      match xSignature with
      | none => .missingSignature
      | some signature =>
        if signature = "" then .missingSignature
        else
          let expected := hmacSha256Hex secret body
          if compare_digest signature expected then .ok else .invalidSignature

/-! ## The request-processing pipeline and the webhook endpoint -/

/-- The `HTTPException`s the processing pipeline can raise, plus the
(unreachable, see `C6`) possibility of a `KeyError` escaping
`from_tradingview_alert`. -/
inductive HttpError where
  | unauthorizedMissingSignature
  | unauthorizedInvalidSignature
  | badRequestInvalidJson
  | badRequestInvalidPayload (errs : List String)
  | internalKeyError
deriving DecidableEq

/-- The HTTP status code of each pipeline error. -/
def HttpError.statusCode : HttpError → Nat
  | .unauthorizedMissingSignature => 401
  | .unauthorizedInvalidSignature => 401
  | .badRequestInvalidJson => 400
  | .badRequestInvalidPayload _ => 400
  | .internalKeyError => 500

/-- Embeds `PayloadProcessor.process_request` (`payload_processor.py` lines
27-76): validate the signature, parse the body as JSON (`parsed = none`
embeds a `json.JSONDecodeError`), validate the payload against the
`TradingViewAlert` schema, and translate it to a `TradeRequest`. -/
def process_request (secret : Option String) (xSig : Option String)
    (rawBody : List Nat) (parsed : Option AlertInput) :
    Except HttpError (TradingViewAlert × TradeRequest) :=
  match validate_signature secret xSig rawBody with
  | .missingSignature => .error .unauthorizedMissingSignature
  | .invalidSignature => .error .unauthorizedInvalidSignature
  | .ok =>
    match parsed with
    | none => .error .badRequestInvalidJson
    | some body =>
      match validateAlert body with
      | .error errs => .error (.badRequestInvalidPayload errs)
      | .ok alert =>
        match from_tradingview_alert alert with
        | none => .error .internalKeyError
        | some trade_request => .ok (alert, trade_request)

/-- The result of `KrakenExecutor.execute_trade` / `validate_trade`
(a `TradeResponse`, `models.py` lines 171-177). -/
structure TradeResponse where
  success : Bool
  order_id : Option String := none
  error : Option String := none

/-- A JSON HTTP response, reduced to the parts the claims mention. -/
structure JsonResp where
  status : Nat
  message : String
  error : Option String
deriving DecidableEq

/-- The `except Exception` branch of the webhook endpoint
(`receiver.py` lines 78-88): a 500 response whose body carries `str(e)`
verbatim — note this handler never consults the environment. -/
def webhook_unhandled_error_response (e : String) : JsonResp :=
  { status := 500, message := "Internal server error", error := some e }

/-- The `tradingview_webhook` endpoint (`receiver.py` lines 21-88); the
`validate` endpoint (lines 91-156) has the identical shape with
`validate_trade` for `execute_trade`, so one definition covers both.
`execute_trade` returns `.error e` to embed the gateway raising an
unexpected exception `e`.  The second component of the result is the
`TradeRequest` the exchange gateway was invoked with, `none` when the
gateway was never called — it records exactly the calls the endpoint makes
to `kraken_executor`. -/
def tradingview_webhook (secret : Option String) (xSig : Option String)
    (rawBody : List Nat) (parsed : Option AlertInput)
    (execute_trade : TradeRequest → Except String TradeResponse) :
    JsonResp × Option TradeRequest :=
  match process_request secret xSig rawBody parsed with
  | .error e => ({ status := e.statusCode, message := "HTTPException", error := none }, none)
  | .ok (_, trade_request) =>
    match execute_trade trade_request with
    | .error exc => (webhook_unhandled_error_response exc, some trade_request)
    | .ok resp =>
      ({ status := if resp.success then 200 else 400,
         message := if resp.success then "Order executed" else "Order failed",
         error := resp.error }, some trade_request)

/-! ## Environment configuration and the global exception handler
(`config/config.py`, `src/main.py`) -/

/-- The `Environment` enum from `config/config.py`. -/
inductive Environment where
  | DEVELOPMENT
  | STAGING
  | PRODUCTION
deriving DecidableEq

/-- Embeds `Config.is_development` (`config.py` lines 67-70). -/
def is_development : Environment → Bool
  | .DEVELOPMENT => true
  | _ => false

/-- Embeds `global_exception_handler` (`main.py` lines 50-61): the application
level handler for exceptions that escape the endpoint handlers; it hides
the exception detail outside the development environment. -/
def global_exception_handler (env : Environment) (exc : String) : JsonResp :=
  { status := 500,
    message := "Internal server error",
    error := some (if is_development env then exc else "An unexpected error occurred") }

/-! ## Helper lemmas -/

/-- The map `Char.ofNat` round-trips on codepoints below the surrogate range. -/
theorem toNat_char_ofNat_lt {n : Nat} (h : n < 55296) : (Char.ofNat n).toNat = n := by
  rw [Char.ofNat, dif_pos (Or.inl h)]
  rfl

/-- The map `Char.toUpper` is idempotent. -/
theorem char_toUpper_idem (c : Char) : c.toUpper.toUpper = c.toUpper := by
  have key : ∀ d : Char, ¬(d.toNat ≥ 97 ∧ d.toNat ≤ 122) → d.toUpper = d := by
    intro d hd
    simp only [Char.toUpper]
    rw [if_neg hd]
  by_cases h : c.toNat ≥ 97 ∧ c.toNat ≤ 122
  · have h1 : c.toUpper = Char.ofNat (c.toNat - 32) := by
      simp only [Char.toUpper]
      rw [if_pos h]
    rw [h1]
    apply key
    rw [toNat_char_ofNat_lt (by omega : c.toNat - 32 < 55296)]
    omega
  · rw [key c h, key c h]

/-- The map `pyUpper` is idempotent. -/
theorem pyUpper_idem (s : String) : pyUpper (pyUpper s) = pyUpper s := by
  show String.mk (((s.data.map Char.toUpper)).map Char.toUpper) = String.mk (s.data.map Char.toUpper)
  rw [List.map_map]
  exact congrArg String.mk (List.map_congr_left fun a _ => char_toUpper_idem a)

/-- The alias table only ever produces `"XBTUSD"` or `"ETHUSD"`. -/
theorem lookup_symbol_mappings (v : String) :
    symbol_mappings.lookup v = none ∨
    symbol_mappings.lookup v = some "XBTUSD" ∨
    symbol_mappings.lookup v = some "ETHUSD" := by
  simp only [symbol_mappings, List.lookup]
  cases v == "BTCUSD" <;> cases v == "BTC/USD" <;> cases v == "ETHUSD" <;>
    cases v == "ETH/USD" <;> simp

/-- The validator `validate_prices` never fails: under pydantic v1 its `kwargs.get('field',
'')` is a `ModelField` object, never equal (by Python `==`) to the strings
`'price'` / `'stop_price'`, so the required-field branch is unreachable. -/
theorem validate_prices_ok (v : Option ℚ) (f : String) (ot : OrderType) :
    validate_prices v (.modelField f) ot = .ok v := by
  cases v <;> rfl

/-- The validator `validate_volume` either passes the value through or rejects it. -/
theorem validate_volume_cases (jv : Option ℚ) :
    validate_volume jv = .ok jv ∨ validate_volume jv = .error "Volume must be positive" := by
  rcases jv with _ | x
  · exact Or.inl rfl
  · by_cases hx : x ≤ 0
    · exact Or.inr (by simp [validate_volume, hx])
    · exact Or.inl (by simp [validate_volume, hx])

/-- Inversion of a successful schema validation: the validated alert's
fields in terms of the payload's fields. -/
theorem validateAlert_ok_inv {i : AlertInput} {a : TradingViewAlert}
    (h : validateAlert i = .ok a) :
    (∃ s, i.symbol = some s ∧ a.symbol = validate_symbol s) ∧
    (∃ sd, i.side = some sd ∧ a.side = sd) ∧
    a.order_type = i.order_type.getD .MARKET ∧
    a.volume = i.volume.getD none ∧
    a.price = i.price.getD none ∧
    a.stop_price = i.stop_price.getD none ∧
    a.leverage = i.leverage := by
  rcases i with ⟨sym, sd, ot, vol, pr, stp, lev⟩
  rcases sym with _ | s
  · simp [validateAlert] at h
  rcases sd with _ | sdv
  · simp [validateAlert] at h
  rcases vol with _ | jv
  · rcases pr with _ | jpr <;> rcases stp with _ | jstp <;>
      simp only [validateAlert, validate_prices_ok] at h <;>
      (injection h with h; subst h;
       exact ⟨⟨s, rfl, rfl⟩, ⟨sdv, rfl, rfl⟩, rfl, rfl, rfl, rfl, rfl⟩)
  · rcases validate_volume_cases jv with hv | hv
    · rcases pr with _ | jpr <;> rcases stp with _ | jstp <;>
        simp only [validateAlert, validate_prices_ok, hv] at h <;>
        (injection h with h; subst h;
         exact ⟨⟨s, rfl, rfl⟩, ⟨sdv, rfl, rfl⟩, rfl, rfl, rfl, rfl, rfl⟩)
    · rcases pr with _ | jpr <;> rcases stp with _ | jstp <;>
        simp only [validateAlert, validate_prices_ok, hv] at h <;>
        exact Except.noConfusion h

/-! ## The claims -/

/-- C7: symbol normalization (`TradingViewAlert.validate_symbol`) is
idempotent — `normalize (normalize s) = normalize s` for every symbol
string `s` — and `normalize "btcusd" = normalize "BTC/USD" = "XBTUSD"`. -/
theorem C7_theorem :
    (∀ s, validate_symbol (validate_symbol s) = validate_symbol s) ∧
    validate_symbol "btcusd" = "XBTUSD" ∧ validate_symbol "BTC/USD" = "XBTUSD" := by
  refine ⟨?_, by decide, by decide⟩
  intro s
  have hs : validate_symbol s = (symbol_mappings.lookup (pyUpper s)).getD (pyUpper s) := rfl
  rcases lookup_symbol_mappings (pyUpper s) with h | h | h
  · rw [hs, h, Option.getD_none]
    show (symbol_mappings.lookup (pyUpper (pyUpper s))).getD (pyUpper (pyUpper s)) = pyUpper s
    rw [pyUpper_idem, h, Option.getD_none]
  · rw [hs, h, Option.getD_some]
    decide
  · rw [hs, h, Option.getD_some]
    decide

/-- The translated order's volume slot is exactly the alert's volume,
rendered with `str`. -/
theorem from_tv_volume (a : TradingViewAlert) (r : TradeRequest)
    (hr : from_tradingview_alert a = some r) : r.volume = a.volume.map pyFloatStr := by
  rcases a with ⟨sym, sd, ot, vol, pr, stp, lev⟩
  cases ot <;> rcases vol with _ | v <;> rcases pr with _ | p <;>
    rcases stp with _ | sp <;> rcases lev with _ | l <;>
    (injection hr with hr; subst hr) <;> simp

/-- C2 (code_bug): contrary to the claim, schema validation accepts an
alert with `order_type = limit` and no `price`, and an alert with
`order_type = stop-loss` and a `null` `stop_price`: under pydantic v1 the
`validate_prices` validator is skipped for absent fields (no `always=True`)
and, even when it runs, compares the `ModelField` object in
`kwargs.get('field', '')` against the strings `'price'` / `'stop_price'`,
which is always false — so its required-field `ValueError` is unreachable
(see `validate_prices_ok`). -/
theorem C2_theorem :
    validateAlert { symbol := some "XBTUSD", side := some .BUY, order_type := some .LIMIT } =
      .ok { symbol := "XBTUSD", side := .BUY, order_type := .LIMIT } ∧
    validateAlert { symbol := some "XBTUSD", side := some .SELL, order_type := some .STOP_LOSS,
                    stop_price := some none } =
      .ok { symbol := "XBTUSD", side := .SELL, order_type := .STOP_LOSS } :=
  ⟨rfl, rfl⟩

/-- C3: for every validated alert with `stop_price` present, the
translation writes it to `price2` when `order_type` is `stop-loss-limit` or
`take-profit-limit`, and to `price` when it is `stop-loss` or
`take-profit`. -/
theorem C3_theorem : ∀ (a : TradingViewAlert) (sp : ℚ) (r : TradeRequest),
    a.stop_price = some sp → from_tradingview_alert a = some r →
    ((a.order_type = .STOP_LOSS_LIMIT ∨ a.order_type = .TAKE_PROFIT_LIMIT) →
      r.price2 = some (pyFloatStr sp)) ∧
    ((a.order_type = .STOP_LOSS ∨ a.order_type = .TAKE_PROFIT) →
      r.price = some (pyFloatStr sp)) := by
  rintro ⟨sym, sd, ot, vol, pr, stp, lev⟩ sp r hsp hr
  obtain rfl : stp = some sp := hsp
  cases ot <;> rcases vol with _ | v <;> rcases pr with _ | p <;> rcases lev with _ | l <;>
    (injection hr with hr; subst hr) <;> simp

/-- C3 witness: a concrete `stop-loss-limit` alert, whose `stop_price` `2`
lands in the secondary price slot. -/
theorem C3_witness :
    ({ pair := "XBTUSD", type := OrderSide.BUY, ordertype := "stop-loss-limit",
       price := some (pyFloatStr 1), price2 := some (pyFloatStr 2) } : TradeRequest).price2 =
      some (pyFloatStr 2) :=
  (C3_theorem
    { symbol := "XBTUSD", side := .BUY, order_type := .STOP_LOSS_LIMIT,
      price := some 1, stop_price := some 2 } 2
    { pair := "XBTUSD", type := OrderSide.BUY, ordertype := "stop-loss-limit",
      price := some (pyFloatStr 1), price2 := some (pyFloatStr 2) }
    rfl rfl).1 (Or.inl rfl)

/-- C4 counterexample: the claim says schema validation requires a
non-empty symbol and rejects an empty result, but `validate_symbol`
performs no emptiness check — the empty symbol is accepted unchanged. -/
theorem C4_counterexample :
    validateAlert { symbol := some "", side := some .BUY } =
      .ok { symbol := "", side := .BUY } ∧
    validate_symbol "" = "" :=
  ⟨rfl, rfl⟩

/-- C4 (amended): schema validation requires the `symbol` field to be
present, and normalizes it by uppercasing and applying the static alias
table (`validate_symbol`); it does not reject an empty result. -/
theorem C4_theorem :
    (∀ i : AlertInput, i.symbol = none → ∃ errs, validateAlert i = .error errs) ∧
    (∀ (i : AlertInput) (s : String) (a : TradingViewAlert),
      i.symbol = some s → validateAlert i = .ok a → a.symbol = validate_symbol s) := by
  constructor
  · rintro ⟨sym, sd, ot, vol, pr, stp, lev⟩ h
    obtain rfl : sym = none := h
    exact ⟨_, rfl⟩
  · intro i s a hs hok
    obtain ⟨⟨s', hs', ha⟩, -⟩ := validateAlert_ok_inv hok
    rw [hs] at hs'
    injection hs' with hs'
    rw [ha, hs']

/-- C4 witness: a payload without a symbol is rejected; a payload with
symbol `"btcusd"` validates to the normalized symbol `"XBTUSD"`. -/
theorem C4_witness :
    (∃ errs, validateAlert { side := some OrderSide.BUY } = .error errs) ∧
    ({ symbol := "XBTUSD", side := OrderSide.BUY } : TradingViewAlert).symbol =
      validate_symbol "btcusd" :=
  ⟨C4_theorem.1 { side := some OrderSide.BUY } rfl,
   C4_theorem.2 { symbol := some "btcusd", side := some .BUY } "btcusd"
     { symbol := "XBTUSD", side := OrderSide.BUY } rfl rfl⟩

/-- C6: order translation is total on validated alerts — the order-type
mapping covers all six order types, `from_tradingview_alert` always returns
an order command, and the required `pair` / `type` / `ordertype` slots are
populated from the alert. -/
theorem C6_theorem : ∀ a : TradingViewAlert, ∃ r : TradeRequest,
    from_tradingview_alert a = some r ∧ r.pair = a.symbol ∧ r.type = a.side ∧
    ordertype_mapping.lookup a.order_type = some r.ordertype := by
  rintro ⟨sym, sd, ot, vol, pr, stp, lev⟩
  cases ot <;> rcases vol with _ | v <;> rcases pr with _ | p <;>
    rcases stp with _ | sp <;> rcases lev with _ | l <;>
    exact ⟨_, rfl, rfl, rfl, rfl⟩

/-- C8: a supplied non-positive volume is rejected by schema validation
(citing "Volume must be positive"); an absent (or `null`) volume validates
to an alert without a volume, and the resulting order command carries no
volume slot; a positive volume is carried through to the order command as
its string form. -/
theorem C8_theorem :
    (∀ (i : AlertInput) (v : ℚ), i.volume = some (some v) → v ≤ 0 →
      ∃ errs, validateAlert i = .error errs ∧ "Volume must be positive" ∈ errs) ∧
    (∀ (i : AlertInput) (a : TradingViewAlert),
      (i.volume = none ∨ i.volume = some none) → validateAlert i = .ok a →
      a.volume = none ∧ ∀ r, from_tradingview_alert a = some r → r.volume = none) ∧
    (∀ (i : AlertInput) (v : ℚ) (a : TradingViewAlert),
      i.volume = some (some v) → 0 < v → validateAlert i = .ok a →
      a.volume = some v ∧ ∀ r, from_tradingview_alert a = some r →
        r.volume = some (pyFloatStr v)) := by
  refine ⟨?_, ?_, ?_⟩
  · rintro ⟨sym, sd, ot, vol, pr, stp, lev⟩ v hv hle
    obtain rfl : vol = some (some v) := hv
    have hvol : validate_volume (some v) = .error "Volume must be positive" := by
      simp [validate_volume, hle]
    rcases sym with _ | s <;> rcases sd with _ | sdv <;>
      rcases pr with _ | jpr <;> rcases stp with _ | jstp <;>
      simp only [validateAlert, validate_prices_ok, hvol] <;>
      exact ⟨_, rfl, by simp [errsOf]⟩
  · intro i a hvol hok
    have hinv := validateAlert_ok_inv hok
    have hv : a.volume = none := by
      rcases hvol with h | h <;> rw [hinv.2.2.2.1, h] <;> rfl
    exact ⟨hv, fun r hr => by rw [from_tv_volume a r hr, hv]; rfl⟩
  · intro i v a hvol hpos hok
    have hinv := validateAlert_ok_inv hok
    have hv : a.volume = some v := by rw [hinv.2.2.2.1, hvol]; rfl
    exact ⟨hv, fun r hr => by rw [from_tv_volume a r hr, hv]; rfl⟩

/-- C8 witness: volume `0` is rejected; an absent volume yields an order
command without a volume; volume `2` is carried through as its string
form. -/
theorem C8_witness :
    (∃ errs,
      validateAlert { symbol := some "XBTUSD", side := some .BUY, volume := some (some 0) } =
        .error errs ∧ "Volume must be positive" ∈ errs) ∧
    (({ symbol := "XBTUSD", side := OrderSide.BUY } : TradingViewAlert).volume = none ∧
      ∀ r, from_tradingview_alert { symbol := "XBTUSD", side := OrderSide.BUY } = some r →
        r.volume = none) ∧
    (({ symbol := "XBTUSD", side := OrderSide.BUY, volume := some 2 } : TradingViewAlert).volume =
        some 2 ∧
      ∀ r, from_tradingview_alert
          { symbol := "XBTUSD", side := OrderSide.BUY, volume := some 2 } = some r →
        r.volume = some (pyFloatStr 2)) :=
  ⟨C8_theorem.1 { symbol := some "XBTUSD", side := some .BUY, volume := some (some 0) } 0 rfl
     le_rfl,
   C8_theorem.2.1 { symbol := some "XBTUSD", side := some .BUY }
     { symbol := "XBTUSD", side := OrderSide.BUY } (Or.inl rfl) rfl,
   C8_theorem.2.2 { symbol := some "XBTUSD", side := some .BUY, volume := some (some 2) } 2
     { symbol := "XBTUSD", side := OrderSide.BUY, volume := some 2 } rfl (by norm_num) rfl⟩

/-- C10: when an alert carries both `price` and `stop_price` and its
order type is not one of the limit-stop variants, the `stop_price`
assignment overwrites the `price` entry of the request dict — the order
command's primary price is `str(stop_price)` and the alert's `price` is
dropped. -/
theorem C10_theorem : ∀ (a : TradingViewAlert) (p sp : ℚ) (r : TradeRequest),
    a.price = some p → a.stop_price = some sp →
    a.order_type ≠ .STOP_LOSS_LIMIT → a.order_type ≠ .TAKE_PROFIT_LIMIT →
    from_tradingview_alert a = some r →
    r.price = some (pyFloatStr sp) ∧ r.price2 = none := by
  rintro ⟨sym, sd, ot, vol, pr, stp, lev⟩ p sp r hp hsp h1 h2 hr
  obtain rfl : pr = some p := hp
  obtain rfl : stp = some sp := hsp
  cases ot <;> rcases vol with _ | v <;> rcases lev with _ | l <;>
    first
    | exact absurd rfl h1
    | exact absurd rfl h2
    | ((injection hr with hr; subst hr); simp)

/-- C10 witness: a `stop-loss` alert with `price = 1` and `stop_price = 2`
translates to an order command whose primary price is `str(2)` — the
price `1` is gone. -/
theorem C10_witness :
    ({ pair := "XBTUSD", type := OrderSide.SELL, ordertype := "stop-loss",
       price := some (pyFloatStr 2) } : TradeRequest).price = some (pyFloatStr 2) ∧
    ({ pair := "XBTUSD", type := OrderSide.SELL, ordertype := "stop-loss",
       price := some (pyFloatStr 2) } : TradeRequest).price2 = none :=
  C10_theorem
    { symbol := "XBTUSD", side := .SELL, order_type := .STOP_LOSS,
      price := some 1, stop_price := some 2 } 1 2
    { pair := "XBTUSD", type := OrderSide.SELL, ordertype := "stop-loss",
      price := some (pyFloatStr 2) }
    rfl rfl (by decide) (by decide) rfl

/-- A SHA-256 digest is 32 bytes. -/
theorem sha256_length (msg : List Nat) : (sha256 msg).length = 32 := by
  simp [sha256, wordBytes]

/-- Hex-encoding doubles the length. -/
theorem bytesToHex_length (l : List Nat) : (bytesToHex l).length = 2 * l.length := by
  show ((l.map byteHexChars).flatten).length = 2 * l.length
  induction l with
  | nil => rfl
  | cons b t ih =>
    simp only [List.map_cons, List.flatten_cons, List.length_append, ih,
      byteHexChars, List.length_cons, List.length_nil, List.length_map]
    omega

/-- An HMAC-SHA256 hex digest is 64 characters. -/
theorem hmacSha256Hex_length (secret : String) (body : List Nat) :
    (hmacSha256Hex secret body).length = 64 := by
  rw [hmacSha256Hex, bytesToHex_length, hmacSha256]
  simp [sha256_length]

/-- An HMAC-SHA256 hex digest is never the empty string (so an empty
`X-Signature` header can never be the correct signature). -/
theorem hmacSha256Hex_ne_empty (secret : String) (body : List Nat) :
    hmacSha256Hex secret body ≠ "" := by
  intro h
  have hlen := hmacSha256Hex_length secret body
  rw [h] at hlen
  simp at hlen

/-- C1 counterexample: with a secret configured, a *present but empty*
`X-Signature` header is mismatched (the correct digest is never empty) yet
the verifier fails with the "missing signature" error, not the
"invalid signature" error the claim requires for every present-but-
mismatched header — `if not signature:` treats the empty header as
absent. -/
theorem C1_counterexample :
    validate_signature (some "topsecret") (some "") [] = .missingSignature ∧
    (some "" : Option String) ≠ none ∧
    some "" ≠ some (hmacSha256Hex "topsecret" []) := by
  refine ⟨rfl, by simp, fun h => hmacSha256Hex_ne_empty "topsecret" [] ?_⟩
  exact (Option.some_inj.mp h).symm

/-- C1 (amended): with no secret configured, verification is skipped for
every request.  With a (non-empty) secret configured, a request is accepted
iff its `X-Signature` header equals the hex HMAC-SHA256 of the raw body
keyed by the secret; an absent — or empty — header fails with the
"missing signature" error; a present, non-empty, mismatched header fails
with the "invalid signature" error. -/
theorem C1_theorem :
    (∀ (xSig : Option String) (body : List Nat),
      validate_signature none xSig body = .ok) ∧
    (∀ (secret : String) (xSig : Option String) (body : List Nat), secret ≠ "" →
      (validate_signature (some secret) xSig body = .ok ↔
        xSig = some (hmacSha256Hex secret body)) ∧
      (xSig = none → validate_signature (some secret) xSig body = .missingSignature) ∧
      (xSig = some "" → validate_signature (some secret) xSig body = .missingSignature) ∧
      (∀ s, xSig = some s → s ≠ "" → s ≠ hmacSha256Hex secret body →
        validate_signature (some secret) xSig body = .invalidSignature)) := by
  constructor
  · intro xSig body
    rfl
  · intro secret xSig body hsec
    have hne := hmacSha256Hex_ne_empty secret body
    rcases xSig with _ | s
    · have hval : validate_signature (some secret) none body = .missingSignature := by
        simp [validate_signature, hsec]
      rw [hval]
      refine ⟨by simp, fun _ => rfl, by simp, by simp⟩
    · by_cases hs : s = ""
      · subst hs
        have hval : validate_signature (some secret) (some "") body = .missingSignature := by
          simp [validate_signature, hsec]
        rw [hval]
        refine ⟨by simp [Ne.symm hne], by simp, fun _ => rfl, ?_⟩
        intro s' hs' h1 _
        exact absurd (Option.some_inj.mp hs').symm h1
      · have hval : validate_signature (some secret) (some s) body =
            (if s == hmacSha256Hex secret body then SigResult.ok else .invalidSignature) := by
          simp [validate_signature, hsec, hs, compare_digest]
        rw [hval]
        by_cases hd : s = hmacSha256Hex secret body
        · refine ⟨by simp [hd], by simp, ?_, ?_⟩
          · intro h
            exact absurd (Option.some_inj.mp h) hs
          · intro s' hs' _ h2
            exact absurd ((Option.some_inj.mp hs') ▸ hd) h2
        · refine ⟨by simp [hd], by simp, ?_, ?_⟩
          · intro h
            exact absurd (Option.some_inj.mp h) hs
          · intro s' hs' _ _
            simp [hd]

/-- C1 witness: with secret `"k"`, a request without the header is
rejected as missing, and a request whose header carries the correct digest
is accepted. -/
theorem C1_witness :
    validate_signature (some "k") none [] = .missingSignature ∧
    validate_signature (some "k") (some (hmacSha256Hex "k" [])) [] = .ok :=
  ⟨(C1_theorem.2 "k" none [] (by decide)).2.1 rfl,
   (C1_theorem.2 "k" (some (hmacSha256Hex "k" [])) [] (by decide)).1.mpr rfl⟩

/-- C5: the exchange gateway is never invoked when signature verification
or schema validation fails — the endpoint's second component records the
order command the gateway was called with (`none` = never called) — and
whenever the gateway *is* called, its argument is the translation of a
fully validated alert. -/
theorem C5_theorem : ∀ (secret xSig : Option String) (rawBody : List Nat)
    (parsed : Option AlertInput) (exec : TradeRequest → Except String TradeResponse),
    ((validate_signature secret xSig rawBody ≠ .ok ∨ parsed = none ∨
      (∃ i errs, parsed = some i ∧ validateAlert i = .error errs)) →
      (tradingview_webhook secret xSig rawBody parsed exec).2 = none) ∧
    (∀ tr, (tradingview_webhook secret xSig rawBody parsed exec).2 = some tr →
      ∃ i alert, parsed = some i ∧ validateAlert i = .ok alert ∧
        from_tradingview_alert alert = some tr) := by
  intro secret xSig rawBody parsed exec
  constructor
  · intro hfail
    cases hsig : validate_signature secret xSig rawBody with
    | missingSignature => simp [tradingview_webhook, process_request, hsig]
    | invalidSignature => simp [tradingview_webhook, process_request, hsig]
    | ok =>
      rcases hfail with h | h | ⟨i, errs, hp, hv⟩
      · exact absurd hsig h
      · subst h
        simp [tradingview_webhook, process_request, hsig]
      · subst hp
        simp [tradingview_webhook, process_request, hsig, hv]
  · intro tr htr
    cases hp : process_request secret xSig rawBody parsed with
    | error e => simp [tradingview_webhook, hp] at htr
    | ok pr =>
      obtain ⟨alert, tr'⟩ := pr
      have h2 : (tradingview_webhook secret xSig rawBody parsed exec).2 = some tr' := by
        cases hx : exec tr' <;> simp [tradingview_webhook, hp, hx]
      rw [h2] at htr
      injection htr with htr
      subst htr
      rcases parsed with _ | i
      · cases hsig : validate_signature secret xSig rawBody <;>
          simp [process_request, hsig] at hp
      cases hsig : validate_signature secret xSig rawBody <;>
        simp [process_request, hsig] at hp
      cases hv : validateAlert i with
      | error errs => simp [hv] at hp
      | ok alert' =>
        simp only [hv] at hp
        cases hf : from_tradingview_alert alert' with
        | none => simp [hf] at hp
        | some tr'' =>
          simp only [hf, Except.ok.injEq, Prod.mk.injEq] at hp
          obtain ⟨h1, h22⟩ := hp
          exact ⟨i, alert', rfl, hv, by rw [hf, h22]⟩

/-- C5 witness: with a secret configured and the signature header absent,
the request is rejected and the exchange gateway is never called. -/
theorem C5_witness :
    (tradingview_webhook (some "k") none []
      (some { symbol := some "XBTUSD", side := some .BUY })
      (fun _ => .ok { success := true })).2 = none :=
  (C5_theorem (some "k") none [] (some { symbol := some "XBTUSD", side := some .BUY })
    (fun _ => .ok { success := true })).1 (Or.inl (by decide))

/-- C9 counterexample: an unexpected fault (`"boom"`) raised by the
exchange gateway while handling a webhook request is answered with
HTTP 500, but the raw detail `"boom"` appears in the response body — the
endpoint's `except Exception` handler (`receiver.py` lines 78-88) embeds
`str(e)` unconditionally and never consults the environment, so the detail
is not hidden even though the handler's behaviour is the same outside a
development configuration. -/
theorem C9_counterexample :
    (tradingview_webhook none none []
        (some { symbol := some "XBTUSD", side := some .BUY })
        (fun _ => .error "boom")).1.error = some "boom" ∧
    (tradingview_webhook none none []
        (some { symbol := some "XBTUSD", side := some .BUY })
        (fun _ => .error "boom")).1.status = 500 ∧
    is_development .PRODUCTION = false :=
  ⟨rfl, rfl, rfl⟩

/-- C9 (amended): an unexpected fault inside the webhook endpoint is
answered with HTTP 500 whose body always carries the fault's detail
(`str(e)`), in every environment; only a fault that reaches the
application-level `global_exception_handler` (i.e. one raised outside the
endpoint's `try` block) has its detail hidden unless the service runs in a
development configuration. -/
theorem C9_theorem :
    (∀ (secret xSig : Option String) (rawBody : List Nat) (parsed : Option AlertInput)
      (exec : TradeRequest → Except String TradeResponse) (exc : String)
      (alert : TradingViewAlert) (tr : TradeRequest),
      process_request secret xSig rawBody parsed = .ok (alert, tr) →
      exec tr = .error exc →
      (tradingview_webhook secret xSig rawBody parsed exec).1 =
        { status := 500, message := "Internal server error", error := some exc }) ∧
    (∀ (env : Environment) (exc : String),
      global_exception_handler env exc =
        { status := 500, message := "Internal server error",
          error := some (if is_development env then exc else "An unexpected error occurred") }) := by
  constructor
  · intro secret xSig rawBody parsed exec exc alert tr hp hx
    simp [tradingview_webhook, hp, hx, webhook_unhandled_error_response]
  · intro env exc
    rfl

/-- C9 witness: a concrete gateway fault `"gateway down"` on a valid
request produces the 500 response carrying the raw detail. -/
theorem C9_witness :
    (tradingview_webhook none none []
        (some { symbol := some "ETHUSD", side := some .SELL })
        (fun _ => .error "gateway down")).1 =
      { status := 500, message := "Internal server error", error := some "gateway down" } :=
  C9_theorem.1 none none [] (some { symbol := some "ETHUSD", side := some .SELL })
    (fun _ => .error "gateway down") "gateway down"
    { symbol := "ETHUSD", side := .SELL }
    { pair := "ETHUSD", type := .SELL, ordertype := "market" } rfl rfl

end KrakenWebhook
